import Mathlib

/-!
Shallow embedding of the simulation engine of `universe_game.py`
(class `UniverseGame` together with the static `PatternDetector` helpers).

Modelling conventions:
* the 20x20 numpy array of 0/1 cells becomes `Grid := Fin 20 → Fin 20 → Bool`;
* numpy slice sums are written as explicit sums of bounds-checked cell reads
  (`cellNat`), which is the same clamping-at-the-border behaviour;
* the random initial grid of `__init__` (and of `reset`) is passed in as an
  explicit parameter, making the random choice an input of the model;
* methods that mutate `self` become functions `GameState → GameState` (paired
  with their return value where a claim needs it); the `game_id`,
  `display_frequency` and the unused `self.history` field, as well as all
  rendering output, are not part of any claim and are omitted;
* `flip_cell` and `add_pattern` return a `Bool` in place of the message
  string: `true` for the success message, `false` for the failure message
  ("Invalid coordinates" / "Unknown pattern"); both are total, mirroring the
  fact that the Python code returns on all paths without raising.
-/

/-- Grid side length, `self.GRID_SIZE = 20` (line 133). -/
def GRID_SIZE : Nat := 20

/-- A 20x20 board of cells; `1`/`0` entries of the numpy array become `Bool`. -/
abbrev Grid := Fin GRID_SIZE → Fin GRID_SIZE → Bool

/-- The all-dead grid, `np.zeros` / `universe.fill(0)`. -/
def emptyGrid : Grid := fun _ _ => false

/-- Reading the array at integer coordinates, with out-of-range reads counting
as 0.  This is how the numpy slices of the source are rendered: a slice
`[max(i-1,0):i+2]` clamps at the border, which is the same as letting the
out-of-range positions contribute nothing. -/
def cellNat (g : Grid) (r c : Int) : Nat :=
  if h : 0 ≤ r ∧ r < GRID_SIZE ∧ 0 ≤ c ∧ c < GRID_SIZE then
    (if g ⟨r.toNat, by omega⟩ ⟨c.toNat, by omega⟩ then 1 else 0)
  else 0

/-- Total number of live cells, `np.sum(grid)`. -/
def countAlive (g : Grid) : Nat :=
  ∑ i : Fin GRID_SIZE, ∑ j : Fin GRID_SIZE, (if g i j then 1 else 0)

/-- The slice sum `np.sum(universe[max(i-1,0):i+2, max(j-1,0):j+2])` of
line 159: the 3x3 window around (i,j) intersected with the board. -/
def sliceSum (g : Grid) (i j : Fin GRID_SIZE) : Nat :=
  cellNat g ((i.val : Int) - 1) ((j.val : Int) - 1)
    + cellNat g ((i.val : Int) - 1) (j.val : Int)
    + cellNat g ((i.val : Int) - 1) ((j.val : Int) + 1)
    + cellNat g (i.val : Int) ((j.val : Int) - 1)
    + cellNat g (i.val : Int) (j.val : Int)
    + cellNat g (i.val : Int) ((j.val : Int) + 1)
    + cellNat g ((i.val : Int) + 1) ((j.val : Int) - 1)
    + cellNat g ((i.val : Int) + 1) (j.val : Int)
    + cellNat g ((i.val : Int) + 1) ((j.val : Int) + 1)

/-- Neighbour count of line 159: the slice sum minus the cell itself. -/
def neighbors (g : Grid) (i j : Fin GRID_SIZE) : Nat :=
  sliceSum g i j - cellNat g (i.val : Int) (j.val : Int)

/-- The per-cell update of lines 160-163: a live cell survives with 2 or 3
neighbours, a dead cell is born with exactly 3. -/
def nextCellAlive (g : Grid) (i j : Fin GRID_SIZE) : Bool :=
  if g i j then decide (neighbors g i j = 2 ∨ neighbors g i j = 3)
  else decide (neighbors g i j = 3)

/-- One generation of the update rule: the `new_grid` built by the loops of
lines 157-163 of `update_universe`. -/
def nextGrid (g : Grid) : Grid := fun i j => nextCellAlive g i j

/-- Neighbour count as the specification states it: the sum over the 8
surrounding positions intersected with the valid index range, the cell
itself excluded.  Written from the spec text for comparison with
`neighbors`. -/
def specNeighborCount (g : Grid) (i j : Fin GRID_SIZE) : Nat :=
  cellNat g ((i.val : Int) - 1) ((j.val : Int) - 1)
    + cellNat g ((i.val : Int) - 1) (j.val : Int)
    + cellNat g ((i.val : Int) - 1) ((j.val : Int) + 1)
    + cellNat g (i.val : Int) ((j.val : Int) - 1)
    + cellNat g (i.val : Int) ((j.val : Int) + 1)
    + cellNat g ((i.val : Int) + 1) ((j.val : Int) - 1)
    + cellNat g ((i.val : Int) + 1) (j.val : Int)
    + cellNat g ((i.val : Int) + 1) ((j.val : Int) + 1)

/-- The statistics dictionary initialised at lines 144-150. -/
structure Statistics where
  max_alive : Nat
  min_alive : Nat
  total_births : Nat
  total_deaths : Nat
  generations_stable : Nat
deriving DecidableEq

/-- A detected pattern, the dictionaries built by the `PatternDetector`
static methods (lines 15-65), as a tagged variant. -/
inductive PatternMatch where
  | still_life (cells : Nat)
  | oscillator (period : Nat)
  | potential_glider (position : Nat × Nat) (cells : Nat)
deriving DecidableEq

/-- One entry of `self.detected_patterns` (lines 208-211). -/
structure PatternRecord where
  turn : Nat
  patterns : List PatternMatch
deriving DecidableEq

/-- The mutable state of a `UniverseGame` instance (lines 131-150), restricted
to the fields the simulation engine reads or writes. -/
structure GameState where
  «universe» : Grid
  turn : Nat
  max_turns : Nat
  grid_history : List Grid
  detected_patterns : List PatternRecord
  statistics : Statistics

/-- Fresh session state built by `__init__` (lines 131-150); the random
initial grid is the parameter `g`. -/
def initState (g : Grid) : GameState :=
  { «universe» := g
    turn := 0
    max_turns := 20
    grid_history := []
    detected_patterns := []
    statistics :=
      { max_alive := 0
        min_alive := 999
        total_births := 0
        total_deaths := 0
        generations_stable := 0 } }

/-- PatternDetector.detect_oscillators (lines 18-33): with at least 3 recorded
grids, report a 2-period match when the grid equals `history[-2]` and a
3-period match when it equals `history[-3]`. -/
def detect_oscillators (grid : Grid) (history : List Grid) : List PatternMatch :=
  if history.length < 3 then []
  else
    (if grid = history.getD (history.length - 2) emptyGrid
      then [PatternMatch.oscillator 2] else [])
    ++ (if 3 ≤ history.length ∧ grid = history.getD (history.length - 3) emptyGrid
      then [PatternMatch.oscillator 3] else [])

/-- PatternDetector.detect_still_lifes (lines 35-42): a still life is reported
when the grid equals the previous one and has a positive population. -/
def detect_still_lifes (grid prev : Grid) : List PatternMatch :=
  if grid = prev then
    (if 0 < countAlive grid then [PatternMatch.still_life (countAlive grid)] else [])
  else []

/-- Sum of a 3x3 region `grid[i:i+3, j:j+3]` (line 57); the loop bounds keep
every read in range, so the bounds-checked reads are exact. -/
def regionSum (g : Grid) (i j : Nat) : Nat :=
  cellNat g (i : Int) (j : Int) + cellNat g (i : Int) ((j : Int) + 1)
    + cellNat g (i : Int) ((j : Int) + 2)
    + cellNat g ((i : Int) + 1) (j : Int) + cellNat g ((i : Int) + 1) ((j : Int) + 1)
    + cellNat g ((i : Int) + 1) ((j : Int) + 2)
    + cellNat g ((i : Int) + 2) (j : Int) + cellNat g ((i : Int) + 2) ((j : Int) + 1)
    + cellNat g ((i : Int) + 2) ((j : Int) + 2)

/-- PatternDetector.detect_gliders (lines 44-65): with at least 4 recorded
grids, every 3x3 window holding exactly 5 live cells is flagged, scanning
rows then columns. -/
def detect_gliders (grid : Grid) (history : List Grid) : List PatternMatch :=
  if history.length < 4 then []
  else
    ((List.range (GRID_SIZE - 2)).map (fun i =>
      (List.range (GRID_SIZE - 2)).filterMap (fun j =>
        if regionSum grid i j = 5 then
          some (PatternMatch.potential_glider (i, j) 5)
        else none))).flatten

/-- The `patterns` list computed by `UniverseGame.detect_patterns`
(lines 188-205): still lifes, then oscillators, then gliders, guarded by a
non-empty history. -/
def detectPatternsList (s : GameState) : List PatternMatch :=
  if 0 < s.grid_history.length then
    detect_still_lifes s.«universe»
        (s.grid_history.getD (s.grid_history.length - 1) emptyGrid)
      ++ detect_oscillators s.«universe» s.grid_history
      ++ detect_gliders s.«universe» s.grid_history
  else []

/-- UniverseGame.detect_patterns (lines 188-211): when the computed list is
non-empty, append one record keyed by the current `self.turn`. -/
def detect_patterns (s : GameState) : GameState :=
  if (detectPatternsList s).isEmpty then s
  else
    { s with detected_patterns :=
        s.detected_patterns ++ [{ turn := s.turn, patterns := detectPatternsList s }] }

/-- The births/deaths update of lines 169-172: add the positive part of the
population delta to `total_births`, the negative part to `total_deaths`. -/
def recordBirthsDeaths (st : Statistics) (old_alive new_alive : Nat) : Statistics :=
  if old_alive < new_alive then
    { st with total_births := st.total_births + (new_alive - old_alive) }
  else if new_alive < old_alive then
    { st with total_deaths := st.total_deaths + (old_alive - new_alive) }
  else st

/-- The max/min update of lines 174-175. -/
def recordMaxMin (st : Statistics) (new_alive : Nat) : Statistics :=
  { st with
    max_alive := max st.max_alive new_alive
    min_alive := min st.min_alive new_alive }

/-- The stability update of lines 177-180. -/
def recordStability (st : Statistics) (stable : Bool) : Statistics :=
  if stable then { st with generations_stable := st.generations_stable + 1 }
  else { st with generations_stable := 0 }

/-- The whole statistics update of `update_universe` (lines 165-180), in the
order of the source: births/deaths, then max/min, then stability. -/
def updateStats (st : Statistics) (old_alive new_alive : Nat) (stable : Bool) : Statistics :=
  recordStability (recordMaxMin (recordBirthsDeaths st old_alive new_alive) new_alive) stable

/-- The state after lines 152-183 of `update_universe`: grid replaced by the
new generation, statistics updated, old grid appended to the history; the
turn counter is untouched here. -/
def advance_state (s : GameState) : GameState :=
  { s with
    «universe» := nextGrid s.«universe»
    grid_history := s.grid_history ++ [s.«universe»]
    statistics := updateStats s.statistics (countAlive s.«universe»)
        (countAlive (nextGrid s.«universe»))
        (decide (s.«universe» = nextGrid s.«universe»)) }

/-- UniverseGame.update_universe (lines 152-186): advance the grid, history
and statistics, then run the pattern detection. -/
def update_universe (s : GameState) : GameState :=
  detect_patterns (advance_state s)

/-- Return value of `step` (lines 321-330): either the terminal
`game_finished` status or the summary of `get_summary` (lines 243-265),
restricted to its simulation-relevant fields. -/
inductive StepRes where
  | game_finished
  | summary (turn : Nat) (alive_cells : Nat) (recent : List PatternRecord)
deriving DecidableEq

/-- UniverseGame.get_summary (lines 243-265): current turn, population, and
the last three pattern records (`detected_patterns[-3:]`). -/
def get_summary (s : GameState) : StepRes :=
  StepRes.summary s.turn (countAlive s.«universe»)
    (s.detected_patterns.drop (s.detected_patterns.length - 3))

/-- UniverseGame.step (lines 321-330): a no-op returning `game_finished` when
`turn >= max_turns`, otherwise `update_universe` followed by the turn
increment and the summary. -/
def step (s : GameState) : GameState × StepRes :=
  if s.max_turns ≤ s.turn then (s, StepRes.game_finished)
  else
    (let s2 := { update_universe s with turn := (update_universe s).turn + 1 }
    (s2, get_summary s2))

/-- UniverseGame.flip_cell (lines 291-297): toggle a single in-range cell,
report failure (the "Invalid coordinates" string, here `false`) otherwise. -/
def flip_cell (s : GameState) (x y : Int) : GameState × Bool :=
  if 0 ≤ x ∧ x < GRID_SIZE ∧ 0 ≤ y ∧ y < GRID_SIZE then
    ({ s with «universe» := fun i j =>
        if i.val = x.toNat ∧ j.val = y.toNat then !(s.«universe» i j)
        else s.«universe» i j }, true)
  else (s, false)

/-- The fixed pattern library of lines 301-306. -/
def patternLib (name : String) : Option (List (Nat × Nat)) :=
  if name = "glider" then some [(0, 1), (1, 2), (2, 0), (2, 1), (2, 2)]
  else if name = "blinker" then some [(0, 0), (0, 1), (0, 2)]
  else if name = "block" then some [(0, 0), (0, 1), (1, 0), (1, 1)]
  else if name = "beacon" then some [(0, 0), (0, 1), (1, 0), (2, 3), (3, 2), (3, 3)]
  else none

/-- The stamping loop of lines 315-317: set each in-range offset cell to
live, skipping offsets that fall outside the grid. -/
def stampCells (g : Grid) (x y : Int) (offs : List (Nat × Nat)) : Grid :=
  offs.foldl (fun acc off =>
    if 0 ≤ x + (off.1 : Int) ∧ x + (off.1 : Int) < GRID_SIZE
        ∧ 0 ≤ y + (off.2 : Int) ∧ y + (off.2 : Int) < GRID_SIZE then
      fun i j =>
        if i.val = (x + (off.1 : Int)).toNat ∧ j.val = (y + (off.2 : Int)).toNat
        then true else acc i j
    else acc) g

/-- UniverseGame.add_pattern (lines 299-319): unknown names fail without any
mutation; known names clear the whole grid and stamp the offsets. -/
def add_pattern (s : GameState) (name : String) (x y : Int) : GameState × Bool :=
  match patternLib name with
  | none => (s, false)
  | some offs => ({ s with «universe» := stampCells emptyGrid x y offs }, true)

/-- The `alive_cells` field reported by `UniverseGame.get_state` (line 338). -/
def get_state_alive_cells (s : GameState) : Nat := countAlive s.«universe»

/-- One externally triggered operation on the session.  `reset` (lines
346-354) re-runs `__init__`, whose fresh random grid is the argument of
`resetOp`; the two query tools (`get_state`, `get_analytics`) are read-only
projections and leave the state unchanged. -/
inductive Op where
  | stepOp
  | flipOp (x y : Int)
  | addPatternOp (name : String) (x y : Int)
  | resetOp (g : Grid)
  | getStateOp
  | getAnalyticsOp

/-- Effect of one operation on the session state. -/
def applyOp (s : GameState) (o : Op) : GameState :=
  match o with
  | Op.stepOp => (step s).1
  | Op.flipOp x y => (flip_cell s x y).1
  | Op.addPatternOp name x y => (add_pattern s name x y).1
  | Op.resetOp g => initState g
  | Op.getStateOp => s
  | Op.getAnalyticsOp => s

/-- Running a sequence of operations left to right. -/
def runOps (s : GameState) (ops : List Op) : GameState := ops.foldl applyOp s

/-- A grid with a single live cell at the origin. -/
def oneCellGrid : Grid := fun i j => decide (i.val = 0 ∧ j.val = 0)

/-- A 2x2 block of live cells with top-left corner (5,5); a classic still
life of the update rule. -/
def blockGrid : Grid :=
  fun i j => decide ((i.val = 5 ∨ i.val = 6) ∧ (j.val = 5 ∨ j.val = 6))

/-- The grid the claim about `add_pattern "block" 5 5` describes: live exactly
at the block offsets (0,0),(0,1),(1,0),(1,1) translated by (5,5). -/
def blockAt55 : Grid :=
  fun i j => decide ((i.val, j.val) = (5, 5) ∨ (i.val, j.val) = (5, 6)
    ∨ (i.val, j.val) = (6, 5) ∨ (i.val, j.val) = (6, 6))

/-! ### Helper lemmas about the state transformers -/

theorem detect_patterns_universe (s : GameState) :
    (detect_patterns s).«universe» = s.«universe» := by
  unfold detect_patterns; split <;> rfl

theorem detect_patterns_turn (s : GameState) :
    (detect_patterns s).turn = s.turn := by
  unfold detect_patterns; split <;> rfl

theorem detect_patterns_max_turns (s : GameState) :
    (detect_patterns s).max_turns = s.max_turns := by
  unfold detect_patterns; split <;> rfl

theorem detect_patterns_grid_history (s : GameState) :
    (detect_patterns s).grid_history = s.grid_history := by
  unfold detect_patterns; split <;> rfl

theorem detect_patterns_statistics (s : GameState) :
    (detect_patterns s).statistics = s.statistics := by
  unfold detect_patterns; split <;> rfl

theorem update_universe_universe (s : GameState) :
    (update_universe s).«universe» = nextGrid s.«universe» := by
  unfold update_universe advance_state; rw [detect_patterns_universe]

theorem update_universe_turn (s : GameState) :
    (update_universe s).turn = s.turn := by
  unfold update_universe advance_state; rw [detect_patterns_turn]

theorem update_universe_max_turns (s : GameState) :
    (update_universe s).max_turns = s.max_turns := by
  unfold update_universe advance_state; rw [detect_patterns_max_turns]

theorem update_universe_grid_history (s : GameState) :
    (update_universe s).grid_history = s.grid_history ++ [s.«universe»] := by
  unfold update_universe advance_state; rw [detect_patterns_grid_history]

theorem update_universe_statistics (s : GameState) :
    (update_universe s).statistics
      = updateStats s.statistics (countAlive s.«universe»)
          (countAlive (nextGrid s.«universe»))
          (decide (s.«universe» = nextGrid s.«universe»)) := by
  unfold update_universe advance_state; rw [detect_patterns_statistics]

theorem step_inactive (s : GameState) (h : s.max_turns ≤ s.turn) :
    step s = (s, StepRes.game_finished) := by
  unfold step; rw [if_pos h]

theorem step_active_fst (s : GameState) (h : s.turn < s.max_turns) :
    (step s).1 = { update_universe s with turn := (update_universe s).turn + 1 } := by
  unfold step; rw [if_neg (by omega)]

theorem step_active_universe (s : GameState) (h : s.turn < s.max_turns) :
    (step s).1.«universe» = nextGrid s.«universe» := by
  rw [step_active_fst s h]; exact update_universe_universe s

theorem step_active_turn (s : GameState) (h : s.turn < s.max_turns) :
    (step s).1.turn = s.turn + 1 := by
  rw [step_active_fst s h]
  show (update_universe s).turn + 1 = s.turn + 1
  rw [update_universe_turn]

theorem step_active_max_turns (s : GameState) (h : s.turn < s.max_turns) :
    (step s).1.max_turns = s.max_turns := by
  rw [step_active_fst s h]
  show (update_universe s).max_turns = s.max_turns
  exact update_universe_max_turns s

theorem step_active_grid_history (s : GameState) (h : s.turn < s.max_turns) :
    (step s).1.grid_history = s.grid_history ++ [s.«universe»] := by
  rw [step_active_fst s h]
  show (update_universe s).grid_history = s.grid_history ++ [s.«universe»]
  exact update_universe_grid_history s

theorem step_active_statistics (s : GameState) (h : s.turn < s.max_turns) :
    (step s).1.statistics
      = updateStats s.statistics (countAlive s.«universe»)
          (countAlive (nextGrid s.«universe»))
          (decide (s.«universe» = nextGrid s.«universe»)) := by
  rw [step_active_fst s h]
  show (update_universe s).statistics = _
  exact update_universe_statistics s

theorem recordBirthsDeaths_max_alive (st : Statistics) (o n : Nat) :
    (recordBirthsDeaths st o n).max_alive = st.max_alive := by
  unfold recordBirthsDeaths; split
  · rfl
  · split <;> rfl

theorem recordStability_max_alive (st : Statistics) (b : Bool) :
    (recordStability st b).max_alive = st.max_alive := by
  unfold recordStability; split <;> rfl

theorem updateStats_max_alive (st : Statistics) (o n : Nat) (b : Bool) :
    (updateStats st o n b).max_alive = max st.max_alive n := by
  unfold updateStats
  rw [recordStability_max_alive]
  show max (recordBirthsDeaths st o n).max_alive n = _
  rw [recordBirthsDeaths_max_alive]

theorem recordStability_total_births (st : Statistics) (b : Bool) :
    (recordStability st b).total_births = st.total_births := by
  unfold recordStability; split <;> rfl

theorem recordStability_total_deaths (st : Statistics) (b : Bool) :
    (recordStability st b).total_deaths = st.total_deaths := by
  unfold recordStability; split <;> rfl

theorem updateStats_delta (st : Statistics) (o n : Nat) (b : Bool) :
    ((updateStats st o n b).total_births : Int) - ((updateStats st o n b).total_deaths : Int)
      = (st.total_births : Int) - (st.total_deaths : Int) + (n : Int) - (o : Int) := by
  unfold updateStats
  rw [recordStability_total_births, recordStability_total_deaths]
  show ((recordBirthsDeaths st o n).total_births : Int)
      - ((recordBirthsDeaths st o n).total_deaths : Int) = _
  unfold recordBirthsDeaths
  split
  · next h => show ((st.total_births + (n - o) : Nat) : Int) - _ = _; push_cast; omega
  · split
    · next h =>
        show (st.total_births : Int) - ((st.total_deaths + (o - n) : Nat) : Int) = _
        push_cast; omega
    · next h1 h2 =>
        show (st.total_births : Int) - (st.total_deaths : Int) = _
        omega

theorem flip_cell_turn (s : GameState) (x y : Int) :
    (flip_cell s x y).1.turn = s.turn := by
  unfold flip_cell; split <;> rfl

theorem flip_cell_statistics (s : GameState) (x y : Int) :
    (flip_cell s x y).1.statistics = s.statistics := by
  unfold flip_cell; split <;> rfl

theorem flip_cell_grid_history (s : GameState) (x y : Int) :
    (flip_cell s x y).1.grid_history = s.grid_history := by
  unfold flip_cell; split <;> rfl

theorem flip_cell_detected_patterns (s : GameState) (x y : Int) :
    (flip_cell s x y).1.detected_patterns = s.detected_patterns := by
  unfold flip_cell; split <;> rfl

theorem flip_cell_max_turns (s : GameState) (x y : Int) :
    (flip_cell s x y).1.max_turns = s.max_turns := by
  unfold flip_cell; split <;> rfl

theorem add_pattern_turn (s : GameState) (name : String) (x y : Int) :
    (add_pattern s name x y).1.turn = s.turn := by
  unfold add_pattern; cases patternLib name <;> rfl

theorem add_pattern_statistics (s : GameState) (name : String) (x y : Int) :
    (add_pattern s name x y).1.statistics = s.statistics := by
  unfold add_pattern; cases patternLib name <;> rfl

theorem add_pattern_grid_history (s : GameState) (name : String) (x y : Int) :
    (add_pattern s name x y).1.grid_history = s.grid_history := by
  unfold add_pattern; cases patternLib name <;> rfl

theorem add_pattern_detected_patterns (s : GameState) (name : String) (x y : Int) :
    (add_pattern s name x y).1.detected_patterns = s.detected_patterns := by
  unfold add_pattern; cases patternLib name <;> rfl

theorem add_pattern_max_turns (s : GameState) (name : String) (x y : Int) :
    (add_pattern s name x y).1.max_turns = s.max_turns := by
  unfold add_pattern; cases patternLib name <;> rfl

theorem runOps_nil (s : GameState) : runOps s [] = s := rfl

theorem runOps_cons (s : GameState) (o : Op) (ops : List Op) :
    runOps s (o :: ops) = runOps (applyOp s o) ops := rfl

theorem runOps_append (s : GameState) (l1 l2 : List Op) :
    runOps s (l1 ++ l2) = runOps (runOps s l1) l2 := by
  unfold runOps; exact List.foldl_append _ _ _ _

theorem runSteps_succ (m : Nat) (s : GameState) :
    runOps s (List.replicate (m + 1) Op.stepOp)
      = runOps (step s).1 (List.replicate m Op.stepOp) := by
  rw [List.replicate_succ, runOps_cons]; rfl

theorem runSteps_add (a b : Nat) (s : GameState) :
    runOps s (List.replicate (a + b) Op.stepOp)
      = runOps (runOps s (List.replicate a Op.stepOp)) (List.replicate b Op.stepOp) := by
  rw [List.replicate_add, runOps_append]

/-! ### Claim theorems -/

theorem neighbors_eq_spec (g : Grid) (i j : Fin GRID_SIZE) :
    neighbors g i j = specNeighborCount g i j := by
  unfold neighbors sliceSum specNeighborCount
  omega

/-- C4: for every grid and every cell (i,j), the grid produced by one update
step is alive at (i,j) iff the cell was alive with 2 or 3 live neighbours or
dead with exactly 3, the neighbour count being the sum over the 8 surrounding
positions intersected with the valid index range, the cell itself excluded. -/
theorem update_rule_correct (s : GameState) (i j : Fin GRID_SIZE) :
    (update_universe s).«universe» i j = true ↔
      ((s.«universe» i j = true
          ∧ (specNeighborCount s.«universe» i j = 2 ∨ specNeighborCount s.«universe» i j = 3))
        ∨ (s.«universe» i j = false ∧ specNeighborCount s.«universe» i j = 3)) := by
  rw [update_universe_universe]
  show nextCellAlive s.«universe» i j = true ↔ _
  unfold nextCellAlive
  rw [neighbors_eq_spec]
  cases hb : s.«universe» i j <;> simp

/-- C8: once the turn counter has reached `max_turns`, `step` returns the
terminal status and leaves the whole session state unchanged, so repeated
calls are an idempotent no-op. -/
theorem step_finished_noop (s : GameState) (h : s.turn ≥ s.max_turns) :
    step s = (s, StepRes.game_finished) := by
  unfold step; rw [if_pos h]

theorem step_finished_noop_witness :
    ({ initState emptyGrid with turn := 20 } : GameState).turn
        ≥ ({ initState emptyGrid with turn := 20 } : GameState).max_turns
    ∧ step { initState emptyGrid with turn := 20 }
        = ({ initState emptyGrid with turn := 20 }, StepRes.game_finished) :=
  ⟨by decide, step_finished_noop _ (by decide)⟩

/-- C10: `flip_cell` and `add_pattern` touch at most the grid: the turn
counter, the statistics, the grid history and the pattern log are unchanged
by both, on the success and on the failure paths alike. -/
theorem flip_add_frame (s : GameState) (x y : Int) (name : String) (px py : Int) :
    ((flip_cell s x y).1.turn = s.turn
      ∧ (flip_cell s x y).1.statistics = s.statistics
      ∧ (flip_cell s x y).1.grid_history = s.grid_history
      ∧ (flip_cell s x y).1.detected_patterns = s.detected_patterns)
    ∧ ((add_pattern s name px py).1.turn = s.turn
      ∧ (add_pattern s name px py).1.statistics = s.statistics
      ∧ (add_pattern s name px py).1.grid_history = s.grid_history
      ∧ (add_pattern s name px py).1.detected_patterns = s.detected_patterns) :=
  ⟨⟨flip_cell_turn s x y, flip_cell_statistics s x y, flip_cell_grid_history s x y,
      flip_cell_detected_patterns s x y⟩,
    add_pattern_turn s name px py, add_pattern_statistics s name px py,
    add_pattern_grid_history s name px py, add_pattern_detected_patterns s name px py⟩

/-- C7: a pattern name outside the library fails without mutating any part of
the session state and without raising. -/
theorem add_pattern_unknown_noop (s : GameState) (name : String) (x y : Int)
    (h : name ∉ ["glider", "blinker", "block", "beacon"]) :
    add_pattern s name x y = (s, false) := by
  simp only [List.mem_cons, List.not_mem_nil, or_false, not_or] at h
  obtain ⟨h1, h2, h3, h4⟩ := h
  unfold add_pattern patternLib
  rw [if_neg h1, if_neg h2, if_neg h3, if_neg h4]

theorem add_pattern_unknown_noop_witness :
    "spaceship" ∉ ["glider", "blinker", "block", "beacon"]
    ∧ add_pattern (initState emptyGrid) "spaceship" 3 4 = (initState emptyGrid, false) :=
  ⟨by decide, add_pattern_unknown_noop (initState emptyGrid) "spaceship" 3 4 (by decide)⟩

/-- C6: stamping the block at (5,5) from any prior state yields the grid that
is live exactly at (5,5),(5,6),(6,5),(6,6) and carries exactly 4 live
cells: the grid is fully cleared before the stamp. -/
theorem add_block_55 (s : GameState) :
    (add_pattern s "block" 5 5).1.«universe» = blockAt55
    ∧ countAlive (add_pattern s "block" 5 5).1.«universe» = 4 := by
  have hlib : patternLib "block" = some [(0, 0), (0, 1), (1, 0), (1, 1)] := by decide
  have h1 : (add_pattern s "block" 5 5).1.«universe»
      = stampCells emptyGrid 5 5 [(0, 0), (0, 1), (1, 0), (1, 1)] := by
    unfold add_pattern
    rw [hlib]
  have h2 : stampCells emptyGrid 5 5 [(0, 0), (0, 1), (1, 0), (1, 1)] = blockAt55 := by
    decide
  rw [h1, h2]
  exact ⟨rfl, by decide⟩

theorem applyOp_hist_len (s : GameState) (o : Op)
    (h : s.grid_history.length = s.turn) :
    (applyOp s o).grid_history.length = (applyOp s o).turn := by
  cases o with
  | stepOp =>
      show (step s).1.grid_history.length = (step s).1.turn
      by_cases ha : s.max_turns ≤ s.turn
      · rw [step_inactive s ha]; exact h
      · rw [step_active_grid_history s (by omega), step_active_turn s (by omega),
          List.length_append, h]
        rfl
  | flipOp x y =>
      show (flip_cell s x y).1.grid_history.length = (flip_cell s x y).1.turn
      rw [flip_cell_grid_history, flip_cell_turn]; exact h
  | addPatternOp name x y =>
      show (add_pattern s name x y).1.grid_history.length = (add_pattern s name x y).1.turn
      rw [add_pattern_grid_history, add_pattern_turn]; exact h
  | resetOp g => rfl
  | getStateOp => exact h
  | getAnalyticsOp => exact h

/-- C9: after any sequence of operations on a fresh session, the length of the
grid history equals the turn counter: an executed step appends one entry and
increments the turn, reset zeroes both, and nothing else changes either. -/
theorem history_length_eq_turn (g : Grid) (ops : List Op) :
    (runOps (initState g) ops).grid_history.length = (runOps (initState g) ops).turn := by
  have main : ∀ (l : List Op) (s : GameState), s.grid_history.length = s.turn →
      (runOps s l).grid_history.length = (runOps s l).turn := by
    intro l
    induction l with
    | nil => intro s h; exact h
    | cons o rest ih =>
        intro s h
        rw [runOps_cons]
        exact ih _ (applyOp_hist_len s o h)
  exact main ops (initState g) rfl

theorem step_measure (s : GameState) :
    ((step s).1.statistics.total_births : Int) - ((step s).1.statistics.total_deaths : Int)
        - (countAlive (step s).1.«universe» : Int)
      = (s.statistics.total_births : Int) - (s.statistics.total_deaths : Int)
        - (countAlive s.«universe» : Int) := by
  by_cases h : s.max_turns ≤ s.turn
  · rw [step_inactive s h]
  · rw [step_active_statistics s (by omega), step_active_universe s (by omega),
      updateStats_delta]
    omega

/-- C3: starting from a fresh session and running any number of steps,
total_births minus total_deaths equals the current population minus the
population of the initial grid. -/
theorem births_minus_deaths (g : Grid) (n : Nat) :
    ((runOps (initState g) (List.replicate n Op.stepOp)).statistics.total_births : Int)
        - ((runOps (initState g) (List.replicate n Op.stepOp)).statistics.total_deaths : Int)
      = (countAlive (runOps (initState g) (List.replicate n Op.stepOp)).«universe» : Int)
        - (countAlive g : Int) := by
  have main : ∀ (m : Nat) (s : GameState),
      ((runOps s (List.replicate m Op.stepOp)).statistics.total_births : Int)
          - ((runOps s (List.replicate m Op.stepOp)).statistics.total_deaths : Int)
          - (countAlive (runOps s (List.replicate m Op.stepOp)).«universe» : Int)
        = (s.statistics.total_births : Int) - (s.statistics.total_deaths : Int)
          - (countAlive s.«universe» : Int) := by
    intro m
    induction m with
    | zero => intro s; rfl
    | succ k ih =>
        intro s
        rw [runSteps_succ]
        rw [ih ((step s).1)]
        exact step_measure s
  have h0 := main n (initState g)
  have hb : (initState g).statistics.total_births = 0 := rfl
  have hd : (initState g).statistics.total_deaths = 0 := rfl
  have hu : (initState g).«universe» = g := rfl
  rw [hb, hd, hu] at h0
  omega

/-- C2 counterexample: on a fresh session whose random grid holds one live
cell, the population reported by get_state already exceeds
statistics.max_alive (which starts at 0), so max_alive does not dominate
every observable population count. -/
theorem max_alive_cex :
    ¬ ((initState oneCellGrid).statistics.max_alive
        ≥ get_state_alive_cells (initState oneCellGrid)) := by decide

theorem step_max_alive_mono (s : GameState) :
    s.statistics.max_alive ≤ (step s).1.statistics.max_alive := by
  by_cases h : s.max_turns ≤ s.turn
  · rw [step_inactive s h]
  · rw [step_active_statistics s (by omega), updateStats_max_alive]
    exact le_max_left _ _

theorem runSteps_max_alive_mono (m : Nat) : ∀ s : GameState,
    s.statistics.max_alive ≤ (runOps s (List.replicate m Op.stepOp)).statistics.max_alive := by
  induction m with
  | zero => intro s; exact le_refl _
  | succ k ih =>
      intro s
      rw [runSteps_succ]
      exact le_trans (step_max_alive_mono s) (ih (step s).1)

theorem step_active_pop_le_max (s : GameState) (h : s.turn < s.max_turns) :
    countAlive (step s).1.«universe» ≤ (step s).1.statistics.max_alive := by
  rw [step_active_universe s h, step_active_statistics s h, updateStats_max_alive]
  exact le_max_right _ _

theorem step_preserves_pop_le_max (s : GameState)
    (h : countAlive s.«universe» ≤ s.statistics.max_alive) :
    countAlive (step s).1.«universe» ≤ (step s).1.statistics.max_alive := by
  by_cases ha : s.max_turns ≤ s.turn
  · rw [step_inactive s ha]; exact h
  · exact step_active_pop_le_max s (by omega)

theorem runSteps_preserves_pop_le_max (m : Nat) : ∀ s : GameState,
    countAlive s.«universe» ≤ s.statistics.max_alive →
    countAlive (runOps s (List.replicate m Op.stepOp)).«universe»
      ≤ (runOps s (List.replicate m Op.stepOp)).statistics.max_alive := by
  induction m with
  | zero => intro s h; exact h
  | succ k ih =>
      intro s h
      rw [runSteps_succ]
      exact ih _ (step_preserves_pop_le_max s h)

/-- C2 amended: max_alive dominates the populations recorded by executed
update steps, not every observable count: in a step-only run from a fresh
session, after n steps max_alive is at least the population of the grid that
was current after each earlier step k with 1 ≤ k ≤ n; the population of the initial grid
 (observable before the first step) is not accounted for and can
exceed max_alive. -/
theorem max_alive_after_steps (g : Grid) (k n : Nat) (hk : 1 ≤ k) (hkn : k ≤ n) :
    countAlive (runOps (initState g) (List.replicate k Op.stepOp)).«universe»
      ≤ (runOps (initState g) (List.replicate n Op.stepOp)).statistics.max_alive := by
  obtain ⟨k1, rfl⟩ : ∃ k1, k = k1 + 1 := ⟨k - 1, by omega⟩
  obtain ⟨d, rfl⟩ : ∃ d, n = (k1 + 1) + d := ⟨n - (k1 + 1), by omega⟩
  have hactive : (initState g).turn < (initState g).max_turns := by
    show (0 : Nat) < 20
    decide
  have hInvk : countAlive (runOps (initState g) (List.replicate (k1 + 1) Op.stepOp)).«universe»
      ≤ (runOps (initState g) (List.replicate (k1 + 1) Op.stepOp)).statistics.max_alive := by
    rw [runSteps_succ]
    exact runSteps_preserves_pop_le_max k1 (step (initState g)).1
      (step_active_pop_le_max (initState g) hactive)
  have hmono := runSteps_max_alive_mono d
    (runOps (initState g) (List.replicate (k1 + 1) Op.stepOp))
  have he : (runOps (runOps (initState g) (List.replicate (k1 + 1) Op.stepOp))
        (List.replicate d Op.stepOp)).statistics.max_alive
      = (runOps (initState g) (List.replicate ((k1 + 1) + d) Op.stepOp)).statistics.max_alive :=
    congrArg (fun t : GameState => t.statistics.max_alive)
      (runSteps_add (k1 + 1) d (initState g)).symm
  exact le_trans (le_trans hInvk hmono) (le_of_eq he)

theorem max_alive_after_steps_witness :
    1 ≤ 1 ∧ 1 ≤ 2
    ∧ countAlive (runOps (initState oneCellGrid) (List.replicate 1 Op.stepOp)).«universe»
        ≤ (runOps (initState oneCellGrid) (List.replicate 2 Op.stepOp)).statistics.max_alive :=
  ⟨by decide, by decide, max_alive_after_steps oneCellGrid 1 2 (by decide) (by decide)⟩

set_option maxRecDepth 100000 in
/-- C1 counterexample: one step on a fresh session holding a 2x2 still-life
block appends a pattern record keyed by turn 0, while the turn returned in
the summary of that step is 1; the log entry is not keyed by the post-increment
turn number. -/
theorem pattern_log_key_cex :
    (step (initState blockGrid)).1.detected_patterns
        = [{ turn := 0, patterns := [PatternMatch.still_life 4] }]
      ∧ (step (initState blockGrid)).1.turn = 1 := by decide

/-- C1 amended: for a step executed while Active whose pattern detection is
non-empty, the appended pattern-log entry is keyed by the pre-increment turn
number, i.e. the turn value returned in the summary of that step, minus one. -/
theorem pattern_log_key_amended (s : GameState) (h : s.turn < s.max_turns)
    (hne : detectPatternsList (advance_state s) ≠ []) :
    (step s).1.detected_patterns
        = s.detected_patterns
          ++ [{ turn := (step s).1.turn - 1,
                patterns := detectPatternsList (advance_state s) }]
      ∧ (step s).1.turn = s.turn + 1 := by
  have ht : (step s).1.turn = s.turn + 1 := step_active_turn s h
  refine ⟨?_, ht⟩
  have h1 : (step s).1.detected_patterns = (update_universe s).detected_patterns := by
    rw [step_active_fst s h]
  have hne2 : (detectPatternsList (advance_state s)).isEmpty = false := by
    cases hl : detectPatternsList (advance_state s)
    · exact absurd hl hne
    · rfl
  have h2 : (update_universe s).detected_patterns
      = s.detected_patterns
        ++ [{ turn := s.turn, patterns := detectPatternsList (advance_state s) }] := by
    show (detect_patterns (advance_state s)).detected_patterns = _
    unfold detect_patterns
    rw [hne2]
    rfl
  rw [h1, h2, ht]
  simp

set_option maxRecDepth 100000 in
theorem pattern_log_key_amended_witness :
    (initState blockGrid).turn < (initState blockGrid).max_turns
    ∧ detectPatternsList (advance_state (initState blockGrid)) ≠ []
    ∧ ((step (initState blockGrid)).1.detected_patterns
        = (initState blockGrid).detected_patterns
          ++ [{ turn := (step (initState blockGrid)).1.turn - 1,
                patterns := detectPatternsList (advance_state (initState blockGrid)) }]
      ∧ (step (initState blockGrid)).1.turn = (initState blockGrid).turn + 1) :=
  ⟨by decide, by decide,
    pattern_log_key_amended (initState blockGrid) (by decide) (by decide)⟩

theorem flip_cell_in_range (s : GameState) (x y : Int)
    (h : 0 ≤ x ∧ x < GRID_SIZE ∧ 0 ≤ y ∧ y < GRID_SIZE) :
    flip_cell s x y
      = ({ s with «universe» := fun i j =>
          if i.val = x.toNat ∧ j.val = y.toNat then !(s.«universe» i j)
          else s.«universe» i j }, true) := by
  unfold flip_cell
  rw [if_pos h]

/-- C5: for in-range coordinates, flip_cell succeeds, toggles exactly the
addressed cell, leaves every other cell unchanged, and applied twice restores
the original grid; for out-of-range coordinates it reports failure and leaves
the state untouched, without raising. -/
theorem flip_cell_correct (s : GameState) (x y : Int) :
    ((0 ≤ x ∧ x < GRID_SIZE ∧ 0 ≤ y ∧ y < GRID_SIZE) →
      (flip_cell s x y).2 = true
      ∧ (∀ i j : Fin GRID_SIZE,
          (((i.val : Int) = x ∧ (j.val : Int) = y) →
            (flip_cell s x y).1.«universe» i j = !(s.«universe» i j))
          ∧ (¬((i.val : Int) = x ∧ (j.val : Int) = y) →
            (flip_cell s x y).1.«universe» i j = s.«universe» i j))
      ∧ (flip_cell (flip_cell s x y).1 x y).1.«universe» = s.«universe»)
    ∧ (¬(0 ≤ x ∧ x < GRID_SIZE ∧ 0 ≤ y ∧ y < GRID_SIZE) →
      (flip_cell s x y).1 = s ∧ (flip_cell s x y).2 = false) := by
  constructor
  · intro h
    have e := flip_cell_in_range s x y h
    refine ⟨by rw [e], ?_, ?_⟩
    · intro i j
      constructor
      · intro hij
        have hx : i.val = x.toNat := by omega
        have hy : j.val = y.toNat := by omega
        rw [e]
        show (if i.val = x.toNat ∧ j.val = y.toNat then !(s.«universe» i j)
          else s.«universe» i j) = !(s.«universe» i j)
        rw [if_pos ⟨hx, hy⟩]
      · intro hij
        have hc : ¬(i.val = x.toNat ∧ j.val = y.toNat) := by
          intro hcc
          exact hij ⟨by omega, by omega⟩
        rw [e]
        show (if i.val = x.toNat ∧ j.val = y.toNat then !(s.«universe» i j)
          else s.«universe» i j) = s.«universe» i j
        rw [if_neg hc]
    · have e2 := flip_cell_in_range (flip_cell s x y).1 x y h
      funext i j
      rw [e2]
      show (if i.val = x.toNat ∧ j.val = y.toNat then !((flip_cell s x y).1.«universe» i j)
        else (flip_cell s x y).1.«universe» i j) = s.«universe» i j
      rw [e]
      show (if i.val = x.toNat ∧ j.val = y.toNat
          then !(if i.val = x.toNat ∧ j.val = y.toNat then !(s.«universe» i j)
            else s.«universe» i j)
          else (if i.val = x.toNat ∧ j.val = y.toNat then !(s.«universe» i j)
            else s.«universe» i j)) = s.«universe» i j
      by_cases hc : i.val = x.toNat ∧ j.val = y.toNat
      · rw [if_pos hc, if_pos hc, Bool.not_not]
      · rw [if_neg hc, if_neg hc]
  · intro h
    unfold flip_cell
    rw [if_neg h]
    exact ⟨rfl, rfl⟩

theorem flip_cell_correct_witness :
    (flip_cell (initState emptyGrid) 3 4).2 = true
    ∧ (flip_cell (initState emptyGrid) 25 4).1 = initState emptyGrid :=
  ⟨((flip_cell_correct (initState emptyGrid) 3 4).1 (by decide)).1,
    ((flip_cell_correct (initState emptyGrid) 25 4).2 (by decide)).1⟩
